/-
  Verification of the opportunity-evaluation pipeline of src/app.py
  (Flask backend "Game Arbitrage Tracker").

  The Python code is shallowly embedded: prices are modelled as exact
  rationals (ℚ), Python `None` as `Option.none`, Python truthiness of a
  possibly-missing number as `pyTruthyQ`, and a raised exception inside the
  per-record try-block as `Except.error`.  All definitions are translated
  from src/app.py, function `process_upcs` (lines 24-343) and its inline
  evaluation logic.
-/
import Mathlib

namespace AlphaAmazon

/-- Python truthiness of an optional number: `None` and `0` are falsy. -/
def pyTruthyQ : Option ℚ → Bool
  | none => false
  | some q => q ≠ 0

/-- The last `n` elements of a list, Python `l[-n:]` (for `n ≤ l.length`). -/
def lastN (n : ℕ) (l : List α) : List α := l.drop (l.length - n)

/-- Python `min(l)` on a nonempty list of rationals (`None` when empty). -/
def pyMin : List ℚ → Option ℚ
  | [] => none
  | x :: xs => some (xs.foldl min x)

/-- Python `max(l)` on a nonempty list of rationals (`None` when empty). -/
def pyMax : List ℚ → Option ℚ
  | [] => none
  | x :: xs => some (xs.foldl max x)

/-- Rendering of the Python format spec `.1f` used in the human-readable
price-vs-average texts: the rational rounded to one decimal digit.  (Python
formats a binary float; on exact rationals we round the exact value, which is
the idealisation used throughout this embedding.) -/
def format1f (q : ℚ) : String :=
  let n : ℤ := round (q * 10)
  let m : ℕ := n.natAbs
  (if n < 0 then "-" else "") ++ toString (m / 10) ++ "." ++ toString (m % 10)

/-- The raw `salesRank` field of a product dict: absent, JSON null, a scalar
integer, or a list of integers (app.py lines 96-99). -/
inductive RankField
  | absent
  | null
  | int (n : ℤ)
  | list (l : List ℤ)
  deriving Repr, DecidableEq

/-- The `data` sub-dict of a Keepa product: the parsed `NEW` price series
(`none` when the `NEW` key is absent, `some none` when its value is null),
whether the `NEW_time` key is present, and the interleaved `AMAZON` series
(same convention).  Series entries may be `None` (app.py lines 78-89,
144-153). -/
structure ProductData where
  newKey : Option (Option (List (Option ℚ)))
  hasNewTime : Bool
  amazonKey : Option (Option (List (Option ℚ)))
  deriving Repr, DecidableEq

/-- One raw product record as the evaluation loop sees it (a truthy entry of
the Keepa query result).  `offers` is `some n` when the `offers` key is
present with a list of `n` offers, `none` when absent (app.py lines 137-140). -/
structure Product where
  title : Option String
  asin : Option String
  data : Option ProductData
  salesRank : RankField
  offers : Option ℕ
  deriving Repr, DecidableEq

/-- One entry of the per-request error list (app.py lines 64-68, 326-330). -/
structure ErrEntry where
  upc : String
  error : String
  deriving Repr, DecidableEq

/-- The per-product result dict (app.py lines 292-322). -/
structure Assessment where
  upc : String
  title : String
  asin : String
  current_price : Option ℚ
  avg_30 : Option ℚ
  low_90 : Option ℚ
  high_90 : Option ℚ
  sales_rank : ℤ
  est_sales_month : ℚ
  est_sales_per_day : ℚ
  velocity_category : String
  velocity_explanation : String
  seller_count : ℕ
  profit : Option ℚ
  roi_percent : Option ℚ
  break_even_price : Option ℚ
  price_vs_avg_percent : Option ℚ
  price_vs_avg_signal : String
  price_vs_avg_text : String
  competition_level : String
  competition_warning : String
  risk_score : ℕ
  risk_level : String
  risk_color : String
  risk_recommendation : String
  risk_factors : List String
  amazon_oos : Bool
  trend : String
  processed_date : String
  deriving Repr, DecidableEq

/-- Price extraction, app.py lines 73-89: when `data`, `NEW` and `NEW_time`
are all present and the `NEW` value is a nonempty list, keep the entries that
are not `None` and are `> 0` (dropping the `-0.01` out-of-stock sentinel);
in every other case the retained history is empty. -/
def extractValidPrices (p : Product) : List ℚ :=
  match p.data with
  | none => []
  | some d =>
    match d.newKey, d.hasNewTime with
    | some (some prices), true =>
      if prices.length > 0 then
        prices.filterMap (fun o =>
          match o with
          | some q => if 0 < q then some q else none
          | none => none)
      else []
    | _, _ => []

/-- Sales-rank normalisation, app.py lines 96-99.  `some r` is the integer
the variable `sales_rank` holds after line 99; `none` means the variable is
still a non-integer (JSON null, or an empty list), in which case the first
comparison `sales_rank < 1000` at line 106 raises a `TypeError`. -/
def normalizeSalesRank : RankField → Option ℤ
  | .absent => some 999999
  | .null => none
  | .int n => some n
  | .list l =>
    match l.getLast? with
    | some last => if 0 < last then some last else some 999999
    | none => none

/-- Velocity estimate derived from the normalised sales rank. -/
structure VelocityInfo where
  est_sales : ℚ
  per_day : ℚ
  category : String
  explanation : String
  deriving Repr, DecidableEq

/-- Rank → velocity lookup, app.py lines 101-135. -/
def velocityOf (sales_rank : ℤ) : VelocityInfo :=
  if sales_rank < 1000 then
    ⟨1500, 50, "lightning", "LIGHTNING FAST - Sells multiple times per day. Will sell within hours."⟩
  else if sales_rank < 5000 then
    ⟨800, 27, "very_fast", "VERY FAST - Sells almost daily. Will sell within 1-3 days."⟩
  else if sales_rank < 20000 then
    ⟨300, 10, "fast", "FAST - Sells several times per week. Will sell within a week."⟩
  else if sales_rank < 50000 then
    ⟨100, 3, "moderate", "MODERATE - Sells a few times per week. May take 1-2 weeks to sell."⟩
  else if sales_rank < 100000 then
    ⟨30, 1, "slow", "SLOW - Sells about once per month. May take 30+ days to sell."⟩
  else
    ⟨10, 0.3, "very_slow", "VERY SLOW - Rarely sells. May take months to sell. High risk."⟩

/-- Amazon out-of-stock check, app.py lines 142-153: take the entries at the
odd indices of the interleaved `AMAZON` array; out of stock when the last of
them is `-1` or `None` (or when there is no usable array at all). -/
def amazonOosOf (p : Product) : Bool :=
  match p.data with
  | none => true
  | some d =>
    match d.amazonKey with
    | none => true
    | some none => true
    | some (some amazon_prices) =>
      if amazon_prices.length > 0 then
        let vals := ((amazon_prices.enum.filter (fun x => x.1 % 2 = 1)).map (fun x => x.2))
        match vals.getLast? with
        | none => true
        | some none => true
        | some (some q) => q = -1
      else true

/-- Trend classification, app.py lines 155-163: with at least 10 retained
prices, compare the mean of the last 5 against the mean of the 5 before
them (`price_history[-10:-5]`). -/
def trendOf (ph : List ℚ) : String :=
  if ph.length ≥ 10 then
    let recent_avg := (lastN 5 ph).sum / 5
    let older_avg := ((lastN 10 ph).take 5).sum / 5
    if recent_avg > older_avg * 1.05 then "rising"
    else if recent_avg < older_avg * 0.95 then "falling"
    else "stable"
  else "stable"

/-- Profit / ROI / break-even, app.py lines 165-181.  `if current_price:` is
Python truthiness, so the branch runs iff the price is present and nonzero;
`buy_cost` is the constant 30 and the `if buy_cost > 0:` guard is kept. -/
structure ProfitInfo where
  profit : Option ℚ
  roi_percent : Option ℚ
  break_even_price : Option ℚ
  deriving Repr, DecidableEq

def profitTripleOf (current_price : Option ℚ) : ProfitInfo :=
  if pyTruthyQ current_price then
    match current_price with
    | some cp =>
      let buy_cost : ℚ := 30
      let amazon_fee := cp * 0.15
      let fba_fee : ℚ := 3.99
      let shipping : ℚ := 2.00
      let total_fees := amazon_fee + fba_fee + shipping
      let profit := cp - buy_cost - total_fees
      ⟨some profit,
       if buy_cost > 0 then some (profit / buy_cost * 100) else none,
       some ((buy_cost + fba_fee + shipping) / 0.85)⟩
    | none => ⟨none, none, none⟩
  else ⟨none, none, none⟩

/-- Price-vs-average analysis, app.py lines 183-205 (`if current_price and
avg_30:` is Python truthiness on both operands). -/
structure PriceVsAvgInfo where
  percent : Option ℚ
  signal : String
  text : String
  deriving Repr, DecidableEq

def priceVsAvgOf (current_price avg_30 : Option ℚ) : PriceVsAvgInfo :=
  if pyTruthyQ current_price ∧ pyTruthyQ avg_30 then
    match current_price, avg_30 with
    | some cp, some avg =>
      let pct := (cp - avg) / avg * 100
      if pct ≤ -10 then ⟨some pct, "excellent", format1f |pct| ++ "% below average - EXCELLENT BUY"⟩
      else if pct ≤ -5 then ⟨some pct, "good", format1f |pct| ++ "% below average - GOOD BUY"⟩
      else if pct ≤ 5 then ⟨some pct, "neutral", "Near average price"⟩
      else if pct ≤ 10 then ⟨some pct, "caution", format1f pct ++ "% above average - WAIT"⟩
      else ⟨some pct, "bad", format1f pct ++ "% above average - AVOID"⟩
    | _, _ => ⟨none, "neutral", ""⟩
  else ⟨none, "neutral", ""⟩

/-- Competition classification, app.py lines 207-226. -/
structure CompetitionInfo where
  level : String
  warning : String
  deriving Repr, DecidableEq

def competitionOf (seller_count : ℕ) : CompetitionInfo :=
  if seller_count > 0 then
    if seller_count ≥ 50 then ⟨"very_high", "VERY HIGH COMPETITION - Avoid (price war likely)"⟩
    else if seller_count ≥ 20 then ⟨"high", "HIGH COMPETITION - Risky (many sellers competing)"⟩
    else if seller_count ≥ 10 then ⟨"moderate", "MODERATE COMPETITION - Acceptable"⟩
    else if seller_count ≥ 5 then ⟨"low", "LOW COMPETITION - Good opportunity"⟩
    else ⟨"very_low", "VERY LOW COMPETITION - Excellent opportunity"⟩
  else ⟨"unknown", ""⟩

/-- Risk factor 1 (sales velocity), app.py lines 232-241. -/
def rankRisk (sales_rank : ℤ) : ℕ × Option String :=
  if sales_rank > 100000 then (3, some "Very slow sales")
  else if sales_rank > 50000 then (2, some "Slow sales")
  else if sales_rank > 20000 then (1, some "Moderate sales")
  else (0, none)

/-- Risk factor 2 (competition), app.py lines 243-252. -/
def sellerRisk (seller_count : ℕ) : ℕ × Option String :=
  if seller_count ≥ 50 then (3, some "Very high competition")
  else if seller_count ≥ 20 then (2, some "High competition")
  else if seller_count ≥ 10 then (1, some "Moderate competition")
  else (0, none)

/-- The guarded volatility percentage of risk factor 3, app.py lines 255-257:
`(high_90 - low_90) / low_90 * 100`, only when `low_90` and `high_90` are
truthy and `low_90 > 0`. -/
def volPercentOf (low_90 high_90 : Option ℚ) : Option ℚ :=
  if pyTruthyQ low_90 ∧ pyTruthyQ high_90 then
    match low_90, high_90 with
    | some lo, some hi => if lo > 0 then some ((hi - lo) / lo * 100) else none
    | _, _ => none
  else none

/-- Risk factor 3 (price stability) from the volatility percentage,
app.py lines 258-263. -/
def volRiskOfPercent (volatility_percent : ℚ) : ℕ × Option String :=
  if volatility_percent > 50 then (2, some "Highly volatile pricing")
  else if volatility_percent > 25 then (1, some "Somewhat volatile pricing")
  else (0, none)

/-- Risk factor 4 (profitability), app.py lines 265-272. -/
def profitRisk : Option ℚ → ℕ × Option String
  | none => (0, none)
  | some profit =>
    if profit < 0 then (2, some "Negative profit margin")
    else if profit < 5 then (1, some "Low profit margin")
    else (0, none)

/-- The additive risk score and the accumulated reason strings,
app.py lines 228-272. -/
def riskOf (sales_rank : ℤ) (seller_count : ℕ) (low_90 high_90 profit : Option ℚ) :
    ℕ × List String :=
  let f1 := rankRisk sales_rank
  let f2 := sellerRisk seller_count
  let f3 := match volPercentOf low_90 high_90 with
    | some v => volRiskOfPercent v
    | none => (0, none)
  let f4 := profitRisk profit
  (f1.1 + f2.1 + f3.1 + f4.1, [f1.2, f2.2, f3.2, f4.2].filterMap id)

/-- Risk level / colour / recommendation from the score, app.py lines 274-290. -/
structure RiskLevelInfo where
  level : String
  color : String
  recommendation : String
  deriving Repr, DecidableEq

def riskLevelOf (risk_score : ℕ) : RiskLevelInfo :=
  if risk_score ≤ 2 then ⟨"LOW RISK", "green", "✅ Good opportunity"⟩
  else if risk_score ≤ 4 then ⟨"MODERATE RISK", "yellow", "⚠️ Acceptable with caution"⟩
  else if risk_score ≤ 6 then ⟨"HIGH RISK", "orange", "⚠️ Proceed carefully"⟩
  else ⟨"VERY HIGH RISK", "red", "🔴 Avoid or minimize investment"⟩

/-- The evaluation body after the sales rank has resolved to an integer:
all remaining derivations of app.py lines 71-322 are pure.  `now` is the
`datetime.now()` timestamp string of line 321. -/
def evaluateRank (upc : String) (p : Product) (sales_rank : ℤ) (now : String) : Assessment :=
  let ph := extractValidPrices p
  let current_price := ph.getLast?
  let low_90 := pyMin ph
  let high_90 := pyMax ph
  let avg_30 :=
    if ph.length ≥ 30 then some ((lastN 30 ph).sum / ((lastN 30 ph).length : ℚ))
    else current_price
  let v := velocityOf sales_rank
  let seller_count := p.offers.getD 0
  let pt := profitTripleOf current_price
  let pv := priceVsAvgOf current_price avg_30
  let comp := competitionOf seller_count
  let rk := riskOf sales_rank seller_count low_90 high_90 pt.profit
  let rl := riskLevelOf rk.1
  { upc := upc
    title := p.title.getD "Unknown"
    asin := p.asin.getD ""
    current_price := current_price
    avg_30 := avg_30
    low_90 := low_90
    high_90 := high_90
    sales_rank := sales_rank
    est_sales_month := v.est_sales
    est_sales_per_day := v.per_day
    velocity_category := v.category
    velocity_explanation := v.explanation
    seller_count := seller_count
    profit := pt.profit
    roi_percent := pt.roi_percent
    break_even_price := pt.break_even_price
    price_vs_avg_percent := pv.percent
    price_vs_avg_signal := pv.signal
    price_vs_avg_text := pv.text
    competition_level := comp.level
    competition_warning := comp.warning
    risk_score := rk.1
    risk_level := rl.level
    risk_color := rl.color
    risk_recommendation := rl.recommendation
    risk_factors := rk.2
    amazon_oos := amazonOosOf p
    trend := trendOf ph
    processed_date := now }

/-- One full per-product evaluation, app.py lines 71-322, run inside the
per-record try-block.  The only statement in that block that can raise on the
modelled record shapes is the comparison `sales_rank < 1000` at line 106,
reached with a non-integer `sales_rank` (JSON null, or an empty list left
unchanged by lines 98-99); every other derivation is total. -/
def evaluate (upc : String) (p : Product) (now : String) : Except String Assessment :=
  match normalizeSalesRank p.salesRank with
  | none => .error "TypeError: unorderable types"
  | some r => .ok (evaluateRank upc p r now)

/-- The result-accumulation loop, app.py lines 61-330: iterate over the
products returned by the upstream query, pair each with `upcs[idx]`, route a
falsy product to the error list as `Product not found`, and catch a raised
evaluation as a per-record error entry.  An out-of-range `upcs[idx]` raises an
`IndexError` outside the per-record try-block, aborting the whole loop. -/
def processLoop (upcs : List String) (now : String) :
    ℕ → List (Option Product) → Except String (List Assessment × List ErrEntry)
  | _, [] => .ok ([], [])
  | idx, prod :: rest =>
    match upcs[idx]? with
    | none => .error "IndexError: list index out of range"
    | some upc =>
      match processLoop upcs now (idx + 1) rest with
      | .error e => .error e
      | .ok (res, errs) =>
        match prod with
        | none => .ok (res, ⟨upc, "Product not found"⟩ :: errs)
        | some p =>
          match evaluate upc p now with
          | .ok a => .ok (a :: res, errs)
          | .error e => .ok (res, ⟨upc, e⟩ :: errs)

/-- The HTTP response of the `/api/process` endpoint.  `queriedUpstream`
records whether control reached the `api.query(...)` call at line 49; the
upstream reply itself is passed in as `products`. -/
structure BatchResponse where
  status : ℕ
  queriedUpstream : Bool
  results : List Assessment
  errors : List ErrEntry
  summaryTotal : ℕ
  summarySuccessful : ℕ
  summaryErrors : ℕ
  errorMsg : Option String
  deriving Repr, DecidableEq

/-- The `/api/process` handler, app.py lines 24-343: reject an empty list
(`if not upcs:`) and a list of more than 100 UPCs with a 400 before touching
the Keepa API; reject a missing API key with a 500; otherwise run the loop and
assemble the summary of lines 332-340. -/
def handleProcess (upcs : List String) (keyConfigured : Bool)
    (products : List (Option Product)) (now : String) : BatchResponse :=
  if upcs.isEmpty then
    ⟨400, false, [], [], 0, 0, 0, some "No UPCs provided"⟩
  else if upcs.length > 100 then
    ⟨400, false, [], [], 0, 0, 0, some "Too many UPCs. Please process in batches of 100 or less."⟩
  else if !keyConfigured then
    ⟨500, false, [], [], 0, 0, 0, some "Keepa API key not configured"⟩
  else
    match processLoop upcs now 0 products with
    | .error e => ⟨500, true, [], [], 0, 0, 0, some e⟩
    | .ok (res, errs) =>
      ⟨200, true, res, errs, upcs.length, res.length, errs.length, none⟩

/-! ### Helper lemmas -/

/-- Every retained price is strictly positive: the filter at app.py line 86
keeps exactly the entries that are non-null and `> 0`. -/
theorem extractValidPrices_pos {p : Product} {q : ℚ} (hq : q ∈ extractValidPrices p) :
    0 < q := by
  unfold extractValidPrices at hq
  rcases p with ⟨t, a, d, sr, o⟩
  cases d with
  | none => simp at hq
  | some pd =>
    rcases pd with ⟨nk, hnt, ak⟩
    cases nk with
    | none => simp at hq
    | some v =>
      cases v with
      | none => cases hnt <;> simp at hq
      | some prices =>
        cases hnt with
        | false => simp at hq
        | true =>
          simp only at hq
          split at hq
          · rw [List.mem_filterMap] at hq
            obtain ⟨o, _, hfo⟩ := hq
            cases o with
            | none => simp at hfo
            | some q0 =>
              by_cases h0 : 0 < q0
              · simp only [h0, if_pos] at hfo
                injection hfo with hfo
                exact hfo ▸ h0
              · simp [h0] at hfo
          · simp at hq

/-- The current price, when present, is strictly positive. -/
theorem current_price_pos {p : Product} {c : ℚ}
    (h : (extractValidPrices p).getLast? = some c) : 0 < c := by
  obtain ⟨hne, hc⟩ := List.mem_getLast?_eq_getLast (Option.mem_def.mpr h)
  exact hc ▸ extractValidPrices_pos (List.getLast_mem hne)

/-- Taking `lastN n` of a list with at least `n` elements gives exactly `n`
elements. -/
theorem lastN_length {l : List α} {n : ℕ} (h : n ≤ l.length) : (lastN n l).length = n := by
  simp only [lastN, List.length_drop]
  omega

/-- Successful evaluation means the sales rank resolved to an integer and the
result is the pure evaluation body at that rank. -/
theorem evaluate_ok_iff (upc : String) (p : Product) (now : String) (a : Assessment) :
    evaluate upc p now = .ok a ↔
      ∃ r, normalizeSalesRank p.salesRank = some r ∧ a = evaluateRank upc p r now := by
  unfold evaluate
  cases hn : normalizeSalesRank p.salesRank with
  | none =>
    simp only [hn]
    constructor
    · intro h; exact absurd h (by simp)
    · rintro ⟨r, hr, -⟩; simp at hr
  | some r =>
    simp only [hn]
    constructor
    · intro h; injection h with h; exact ⟨r, rfl, h.symm⟩
    · rintro ⟨r2, hr2, rfl⟩
      injection hr2 with hr2; rw [hr2]

theorem evaluateRank_current_price (upc : String) (p : Product) (r : ℤ) (now : String) :
    (evaluateRank upc p r now).current_price = (extractValidPrices p).getLast? := rfl

theorem evaluateRank_profit (upc : String) (p : Product) (r : ℤ) (now : String) :
    (evaluateRank upc p r now).profit =
      (profitTripleOf (extractValidPrices p).getLast?).profit := rfl

theorem evaluateRank_roi (upc : String) (p : Product) (r : ℤ) (now : String) :
    (evaluateRank upc p r now).roi_percent =
      (profitTripleOf (extractValidPrices p).getLast?).roi_percent := rfl

theorem evaluateRank_break_even (upc : String) (p : Product) (r : ℤ) (now : String) :
    (evaluateRank upc p r now).break_even_price =
      (profitTripleOf (extractValidPrices p).getLast?).break_even_price := rfl

theorem profitTripleOf_none : profitTripleOf none = ⟨none, none, none⟩ := rfl

theorem profitTripleOf_pos {c : ℚ} (hc : 0 < c) :
    profitTripleOf (some c) =
      ⟨some (c - 30 - (c * 0.15 + 3.99 + 2.00)),
       some ((c - 30 - (c * 0.15 + 3.99 + 2.00)) / 30 * 100),
       some ((30 + 3.99 + 2.00) / 0.85)⟩ := by
  simp [profitTripleOf, pyTruthyQ, hc.ne']

/-! ### Claims -/

/-- C1: profit, roiPercent and breakEvenPrice are all `None` iff currentPrice
is `None`; when currentPrice is present, profit = currentPrice − buyCost −
(currentPrice·0.15 + 3.99 + 2.00) with buyCost = 30, roiPercent =
profit / buyCost · 100 exactly, and breakEvenPrice =
(buyCost + 3.99 + 2.00) / 0.85. -/
theorem C1_profit_roi_breakeven (upc : String) (p : Product) (now : String) (a : Assessment)
    (h : evaluate upc p now = .ok a) :
    ((a.profit = none ∧ a.roi_percent = none ∧ a.break_even_price = none) ↔
      a.current_price = none) ∧
    (∀ cp, a.current_price = some cp →
      a.profit = some (cp - 30 - (cp * 0.15 + 3.99 + 2.00)) ∧
      a.roi_percent = some ((cp - 30 - (cp * 0.15 + 3.99 + 2.00)) / 30 * 100) ∧
      a.break_even_price = some ((30 + 3.99 + 2.00) / 0.85)) := by
  obtain ⟨r, -, rfl⟩ := (evaluate_ok_iff upc p now a).mp h
  rw [evaluateRank_current_price, evaluateRank_profit, evaluateRank_roi, evaluateRank_break_even]
  cases hcp : (extractValidPrices p).getLast? with
  | none => simp [profitTripleOf_none]
  | some c =>
    rw [profitTripleOf_pos (current_price_pos hcp)]
    refine ⟨by simp, ?_⟩
    rintro cp hcp2
    injection hcp2 with hcp2
    subst hcp2
    exact ⟨rfl, rfl, rfl⟩

theorem evaluateRank_avg_30 (upc : String) (p : Product) (r : ℤ) (now : String) :
    (evaluateRank upc p r now).avg_30 =
      (if (extractValidPrices p).length ≥ 30 then
        some ((lastN 30 (extractValidPrices p)).sum /
          ((lastN 30 (extractValidPrices p)).length : ℚ))
      else (extractValidPrices p).getLast?) := rfl

theorem evaluateRank_trend (upc : String) (p : Product) (r : ℤ) (now : String) :
    (evaluateRank upc p r now).trend = trendOf (extractValidPrices p) := rfl

/-- The mean of the older 5-price window is positive when 10 prices exist. -/
theorem olderAvg_pos {p : Product} (h10 : 10 ≤ (extractValidPrices p).length) :
    0 < ((lastN 10 (extractValidPrices p)).take 5).sum / 5 := by
  have hpos : ∀ x ∈ (lastN 10 (extractValidPrices p)).take 5, (0:ℚ) < x := by
    intro x hx
    exact extractValidPrices_pos (List.mem_of_mem_drop (List.mem_of_mem_take hx))
  have hne : (lastN 10 (extractValidPrices p)).take 5 ≠ [] := by
    have : ((lastN 10 (extractValidPrices p)).take 5).length = 5 := by
      rw [List.length_take, lastN_length h10]
      omega
    intro habs
    rw [habs] at this
    simp at this
  have hsum := List.sum_pos _ hpos hne
  positivity

/-- C2: with fewer than 30 valid entries movingAverage30 equals currentPrice;
with at least 30 it is the arithmetic mean of exactly the last 30 valid
entries. -/
theorem C2_moving_average (upc : String) (p : Product) (now : String) (a : Assessment)
    (h : evaluate upc p now = .ok a) :
    ((extractValidPrices p).length < 30 → a.avg_30 = a.current_price) ∧
    (30 ≤ (extractValidPrices p).length →
      (lastN 30 (extractValidPrices p)).length = 30 ∧
      a.avg_30 = some ((lastN 30 (extractValidPrices p)).sum / 30)) := by
  obtain ⟨r, -, rfl⟩ := (evaluate_ok_iff upc p now a).mp h
  rw [evaluateRank_avg_30, evaluateRank_current_price]
  constructor
  · intro hlt
    rw [if_neg (by omega)]
  · intro hge
    refine ⟨lastN_length hge, ?_⟩
    rw [if_pos hge, lastN_length hge]
    norm_num

/-- C3: with fewer than 10 valid price points the trend is `stable` whatever
the values are; with at least 10, the trend is `rising` exactly when the mean
of the last 5 exceeds 1.05 times the mean of the preceding 5, `falling`
exactly when it is below 0.95 times that mean, and `stable` otherwise. -/
theorem C3_trend (upc : String) (p : Product) (now : String) (a : Assessment)
    (h : evaluate upc p now = .ok a) :
    ((extractValidPrices p).length < 10 → a.trend = "stable") ∧
    (10 ≤ (extractValidPrices p).length →
      ((a.trend = "rising" ↔
        (lastN 5 (extractValidPrices p)).sum / 5 >
          ((lastN 10 (extractValidPrices p)).take 5).sum / 5 * 1.05) ∧
       (a.trend = "falling" ↔
        (lastN 5 (extractValidPrices p)).sum / 5 <
          ((lastN 10 (extractValidPrices p)).take 5).sum / 5 * 0.95) ∧
       (a.trend = "stable" ↔
        (¬ (lastN 5 (extractValidPrices p)).sum / 5 >
            ((lastN 10 (extractValidPrices p)).take 5).sum / 5 * 1.05 ∧
         ¬ (lastN 5 (extractValidPrices p)).sum / 5 <
            ((lastN 10 (extractValidPrices p)).take 5).sum / 5 * 0.95)))) := by
  obtain ⟨r, -, rfl⟩ := (evaluate_ok_iff upc p now a).mp h
  rw [evaluateRank_trend]
  unfold trendOf
  constructor
  · intro hlt
    rw [if_neg (by omega)]
  · intro h10
    have ho := olderAvg_pos h10
    rw [if_pos h10]
    set recent := (lastN 5 (extractValidPrices p)).sum / 5 with hrec
    set older := ((lastN 10 (extractValidPrices p)).take 5).sum / 5 with hold2
    by_cases hA : recent > older * 1.05
    · have hnB : ¬ recent < older * 0.95 := by
        intro hB
        nlinarith
      rw [if_pos hA]
      refine ⟨by simp [hA], ?_, ?_⟩
      · constructor
        · intro habs; exact absurd habs (by decide)
        · intro hB; exact absurd hB hnB
      · constructor
        · intro habs; exact absurd habs (by decide)
        · rintro ⟨hnA, -⟩; exact absurd hA hnA
    · rw [if_neg hA]
      by_cases hB : recent < older * 0.95
      · rw [if_pos hB]
        refine ⟨?_, by simp [hB], ?_⟩
        · constructor
          · intro habs; exact absurd habs (by decide)
          · intro hA2; exact absurd hA2 hA
        · constructor
          · intro habs; exact absurd habs (by decide)
          · rintro ⟨-, hnB⟩; exact absurd hB hnB
      · rw [if_neg hB]
        refine ⟨?_, ?_, by simp [hA, hB]⟩
        · constructor
          · intro habs; exact absurd habs (by decide)
          · intro hA2; exact absurd hA2 hA
        · constructor
          · intro habs; exact absurd habs (by decide)
          · intro hB2; exact absurd hB2 hB

/-! ### Sample records used by witnesses and counterexamples -/

/-- A product whose `salesRank` is the scalar integer 0. -/
def rankZeroProduct : Product := ⟨none, none, none, .int 0, none⟩

/-- A product whose `salesRank` is the list `[0, 0, 150000]`. -/
def listRankProduct : Product := ⟨none, none, none, .list [0, 0, 150000], none⟩

/-- A product whose `salesRank` key is present but null. -/
def nullRankProduct : Product := ⟨none, none, none, .null, none⟩

/-- A product with no data at all (`salesRank` absent). -/
def minimalProduct : Product := ⟨none, none, none, .absent, none⟩

/-- The normalised sales rank a successful evaluation reports. -/
def resultSalesRank : Except String Assessment → Option ℤ
  | .ok a => some a.sales_rank
  | .error _ => none

/-- C1 witness. -/
theorem C1_witness :
    evaluate "u" minimalProduct "t" = .ok (evaluateRank "u" minimalProduct 999999 "t") ∧
    (evaluateRank "u" minimalProduct 999999 "t").current_price = none ∧
    (evaluateRank "u" minimalProduct 999999 "t").profit = none :=
  ⟨rfl, rfl,
   ((C1_profit_roi_breakeven "u" minimalProduct "t"
     (evaluateRank "u" minimalProduct 999999 "t") rfl).1.mpr rfl).1⟩

/-- C2 witness. -/
theorem C2_witness :
    evaluate "u" minimalProduct "t" = .ok (evaluateRank "u" minimalProduct 999999 "t") ∧
    (extractValidPrices minimalProduct).length < 30 ∧
    (evaluateRank "u" minimalProduct 999999 "t").avg_30 =
      (evaluateRank "u" minimalProduct 999999 "t").current_price :=
  ⟨rfl, by decide,
   (C2_moving_average "u" minimalProduct "t"
     (evaluateRank "u" minimalProduct 999999 "t") rfl).1 (by decide)⟩

/-- C3 witness. -/
theorem C3_witness :
    evaluate "u" minimalProduct "t" = .ok (evaluateRank "u" minimalProduct 999999 "t") ∧
    (extractValidPrices minimalProduct).length < 10 ∧
    (evaluateRank "u" minimalProduct 999999 "t").trend = "stable" :=
  ⟨rfl, by decide,
   (C3_trend "u" minimalProduct "t"
     (evaluateRank "u" minimalProduct 999999 "t") rfl).1 (by decide)⟩

/-- C4 counterexample: a record whose `salesRank` is the scalar integer 0 is
not normalised to 999999 — the 0 passes through unchanged. -/
theorem C4_counterexample :
    resultSalesRank (evaluate "123" rankZeroProduct "t") = some 0 ∧
    resultSalesRank (evaluate "123" rankZeroProduct "t") ≠ some 999999 :=
  ⟨rfl, by decide⟩

/-- C4 (amended): the normalised sales rank is 999999 when the rank field is
absent; a scalar rank passes through unchanged, including 0; when the rank is
a non-empty sequence, the last element is taken (999999 if that last element
is not positive); in particular the rank list [0, 0, 150000] normalises to
150000 and yields velocityCategory very_slow. -/
theorem C4_rank_normalization :
    normalizeSalesRank .absent = some 999999 ∧
    (∀ n : ℤ, normalizeSalesRank (.int n) = some n) ∧
    (∀ (l : List ℤ) (last : ℤ), l.getLast? = some last →
      normalizeSalesRank (.list l) = some (if 0 < last then last else 999999)) ∧
    (evaluate "u" listRankProduct "t" = .ok (evaluateRank "u" listRankProduct 150000 "t") ∧
     (evaluateRank "u" listRankProduct 150000 "t").sales_rank = 150000 ∧
     (evaluateRank "u" listRankProduct 150000 "t").velocity_category = "very_slow") := by
  refine ⟨rfl, fun n => rfl, ?_, rfl, rfl, by decide⟩
  intro l last h
  simp only [normalizeSalesRank]
  rw [h]
  by_cases h0 : 0 < last <;> simp [h0]

/-- C4 witness. -/
theorem C4_witness :
    (([7, -3] : List ℤ).getLast? = some (-3)) ∧
    normalizeSalesRank (.list [7, -3]) = some 999999 := by
  refine ⟨rfl, ?_⟩
  have h := C4_rank_normalization.2.2.1 [7, -3] (-3) rfl
  simpa using h

theorem evaluateRank_risk_score (upc : String) (p : Product) (r : ℤ) (now : String) :
    (evaluateRank upc p r now).risk_score =
      (riskOf r (p.offers.getD 0) (pyMin (extractValidPrices p)) (pyMax (extractValidPrices p))
        (profitTripleOf (extractValidPrices p).getLast?).profit).1 := rfl

theorem rankRisk_le (r : ℤ) : (rankRisk r).1 ≤ 3 := by
  unfold rankRisk; split_ifs <;> simp

theorem sellerRisk_le (s : ℕ) : (sellerRisk s).1 ≤ 3 := by
  unfold sellerRisk; split_ifs <;> simp

theorem volRiskOfPercent_le (v : ℚ) : (volRiskOfPercent v).1 ≤ 2 := by
  unfold volRiskOfPercent; split_ifs <;> simp

theorem profitRisk_le (pr : Option ℚ) : (profitRisk pr).1 ≤ 2 := by
  cases pr with
  | none => simp [profitRisk]
  | some q => simp only [profitRisk]; split_ifs <;> simp

/-- The total risk score is bounded by 3 + 3 + 2 + 2 = 10. -/
theorem riskOf_le (rank : ℤ) (sc : ℕ) (low high pr : Option ℚ) :
    (riskOf rank sc low high pr).1 ≤ 10 := by
  unfold riskOf
  have h1 := rankRisk_le rank
  have h2 := sellerRisk_le sc
  have h4 := profitRisk_le pr
  have h3 : (match volPercentOf low high with
      | some v => volRiskOfPercent v
      | none => ((0:ℕ), (none : Option String))).1 ≤ 2 := by
    cases volPercentOf low high with
    | none => simp
    | some v => exact volRiskOfPercent_le v
  dsimp only
  omega

/-- C5: the computed riskScore is an integer with 0 ≤ riskScore ≤ 10: the four
additive factor groups contribute at most 3 + 3 + 2 + 2, so the total never
exceeds 10 even without an explicit clamp. -/
theorem C5_risk_score_bounds (upc : String) (p : Product) (now : String) (a : Assessment)
    (h : evaluate upc p now = .ok a) :
    0 ≤ a.risk_score ∧ a.risk_score ≤ 10 := by
  obtain ⟨r, -, rfl⟩ := (evaluate_ok_iff upc p now a).mp h
  rw [evaluateRank_risk_score]
  exact ⟨Nat.zero_le _, riskOf_le _ _ _ _ _⟩

/-- C5 witness. -/
theorem C5_witness :
    evaluate "u" minimalProduct "t" = .ok (evaluateRank "u" minimalProduct 999999 "t") ∧
    0 ≤ (evaluateRank "u" minimalProduct 999999 "t").risk_score ∧
    (evaluateRank "u" minimalProduct 999999 "t").risk_score ≤ 10 :=
  ⟨rfl, C5_risk_score_bounds "u" minimalProduct "t"
    (evaluateRank "u" minimalProduct 999999 "t") rfl⟩

theorem rankRisk_mono {r1 r2 : ℤ} (h : r1 ≤ r2) : (rankRisk r1).1 ≤ (rankRisk r2).1 := by
  unfold rankRisk; split_ifs <;> omega

theorem sellerRisk_mono {s1 s2 : ℕ} (h : s1 ≤ s2) : (sellerRisk s1).1 ≤ (sellerRisk s2).1 := by
  unfold sellerRisk; split_ifs <;> omega

theorem volRiskOfPercent_mono {v1 v2 : ℚ} (h : v1 ≤ v2) :
    (volRiskOfPercent v1).1 ≤ (volRiskOfPercent v2).1 := by
  unfold volRiskOfPercent
  split_ifs <;> first | omega | (exfalso; linarith)

theorem profitRisk_mono {p1 p2 : ℚ} (h : p2 ≤ p1) :
    (profitRisk (some p1)).1 ≤ (profitRisk (some p2)).1 := by
  simp only [profitRisk]
  split_ifs <;> first | omega | (exfalso; linarith)

/-- The guarded volatility percentage on a positive low and a high that is at
least the low. -/
theorem volPercentOf_pos {lo hi : ℚ} (hlo : 0 < lo) (hhi : lo ≤ hi) :
    volPercentOf (some lo) (some hi) = some ((hi - lo) / lo * 100) := by
  have hhi0 : (0:ℚ) < hi := lt_of_lt_of_le hlo hhi
  simp [volPercentOf, pyTruthyQ, hlo.ne', hhi0.ne', hlo]

/-- C6: the riskScore is monotonically non-decreasing in each individual risk
input, the others held fixed: increasing the normalised sales rank, increasing
the seller count, increasing the volatility ratio (high90 − low90) / low90
when low90 > 0, or decreasing profit, never decreases the total score. -/
theorem C6_risk_monotone :
    (∀ (r1 r2 : ℤ) (s : ℕ) (low high pr : Option ℚ), r1 ≤ r2 →
      (riskOf r1 s low high pr).1 ≤ (riskOf r2 s low high pr).1) ∧
    (∀ (r : ℤ) (s1 s2 : ℕ) (low high pr : Option ℚ), s1 ≤ s2 →
      (riskOf r s1 low high pr).1 ≤ (riskOf r s2 low high pr).1) ∧
    (∀ (r : ℤ) (s : ℕ) (pr : Option ℚ) (lo1 hi1 lo2 hi2 : ℚ),
      0 < lo1 → 0 < lo2 → lo1 ≤ hi1 → lo2 ≤ hi2 →
      (hi1 - lo1) / lo1 ≤ (hi2 - lo2) / lo2 →
      (riskOf r s (some lo1) (some hi1) pr).1 ≤ (riskOf r s (some lo2) (some hi2) pr).1) ∧
    (∀ (r : ℤ) (s : ℕ) (low high : Option ℚ) (p1 p2 : ℚ), p2 ≤ p1 →
      (riskOf r s low high (some p1)).1 ≤ (riskOf r s low high (some p2)).1) := by
  refine ⟨?_, ?_, ?_, ?_⟩
  · intro r1 r2 s low high pr h
    unfold riskOf
    dsimp only
    have := rankRisk_mono h
    omega
  · intro r s1 s2 low high pr h
    unfold riskOf
    dsimp only
    have := sellerRisk_mono h
    omega
  · intro r s pr lo1 hi1 lo2 hi2 hlo1 hlo2 hle1 hle2 hratio
    unfold riskOf
    rw [volPercentOf_pos hlo1 hle1, volPercentOf_pos hlo2 hle2]
    dsimp only
    have := volRiskOfPercent_mono
      (mul_le_mul_of_nonneg_right hratio (by norm_num : (0:ℚ) ≤ 100))
    omega
  · intro r s low high p1 p2 h
    unfold riskOf
    dsimp only
    have := profitRisk_mono h
    omega

/-- C6 witness. -/
theorem C6_witness :
    (30000 : ℤ) ≤ 120000 ∧
    (riskOf 30000 3 none none none).1 ≤ (riskOf 120000 3 none none none).1 :=
  ⟨by decide, C6_risk_monotone.1 30000 120000 3 none none none (by decide)⟩

/-- C7 counterexample: a record whose `salesRank` is present but null makes
the evaluator raise (the comparison `sales_rank < 1000` is a `TypeError` on
`None`) instead of returning an assessment. -/
theorem C7_counterexample :
    evaluate "123" nullRankProduct "t" = .error "TypeError: unorderable types" := rfl

/-- C7 (amended): the evaluator returns an AssessmentRecord exactly when the
`salesRank` field resolves to an integer (absent defaults to 999999, so merely
missing numeric fields degrade to sentinels); a malformed `salesRank` — null,
or an empty sequence — raises inside the evaluator, and the per-record handler
catches the exception and routes it to the error list with that identifier
instead of aborting the batch. -/
theorem C7_evaluator_totality (upc : String) (p : Product) (now : String) :
    ((∃ a, evaluate upc p now = .ok a) ↔ (normalizeSalesRank p.salesRank).isSome) ∧
    normalizeSalesRank .absent = some 999999 ∧
    (∀ e, evaluate upc p now = .error e →
      processLoop [upc] now 0 [some p] = .ok ([], [⟨upc, e⟩])) := by
  refine ⟨?_, rfl, ?_⟩
  · cases hn : normalizeSalesRank p.salesRank with
    | none => simp [evaluate, hn]
    | some r => simp [evaluate, hn]
  · intro e he
    simp [processLoop, he]

/-- C7 witness. -/
theorem C7_witness :
    evaluate "123" nullRankProduct "t" = .error "TypeError: unorderable types" ∧
    processLoop ["123"] "t" 0 [some nullRankProduct] =
      .ok ([], [⟨"123", "TypeError: unorderable types"⟩]) :=
  ⟨rfl, (C7_evaluator_totality "123" nullRankProduct "t").2.2
    "TypeError: unorderable types" rfl⟩

/-- The processed-date timestamp a successful evaluation reports. -/
def resultProcessedDate : Except String Assessment → Option String
  | .ok a => some a.processed_date
  | .error _ => none

/-- The assessment with its wall-clock timestamp field cleared. -/
def stripDate (a : Assessment) : Assessment := { a with processed_date := "" }

theorem stripDate_evaluateRank (upc : String) (p : Product) (r : ℤ) (now : String) :
    stripDate (evaluateRank upc p r now) = evaluateRank upc p r "" := rfl

/-- C8 counterexample: two evaluations of the same record at different clock
readings differ (in the `processed_date` field), so the AssessmentRecords are
not identical in every field. -/
theorem C8_counterexample :
    evaluate "u" minimalProduct "2024-01-01 00:00:00" ≠
      evaluate "u" minimalProduct "2024-01-02 00:00:00" := by
  intro h
  have h2 := congrArg resultProcessedDate h
  exact absurd h2 (by decide)

/-- C8 (amended): every derived output field other than `processed_date` is a
deterministic, total function of the input record and the configuration
constants — two evaluations of the same record agree on every field except
`processed_date`, which records the wall-clock time of the call. -/
theorem C8_deterministic_up_to_date (upc : String) (p : Product) (now1 now2 : String) :
    (evaluate upc p now1).map stripDate = (evaluate upc p now2).map stripDate := by
  cases hn : normalizeSalesRank p.salesRank with
  | none => simp [evaluate, hn]
  | some r => simp [evaluate, hn, Except.map, stripDate_evaluateRank]

/-- A successful evaluation carries the identifier it was called with. -/
theorem evaluate_ok_upc {upc : String} {p : Product} {now : String} {a : Assessment}
    (h : evaluate upc p now = .ok a) : a.upc = upc := by
  obtain ⟨r, -, rfl⟩ := (evaluate_ok_iff upc p now a).mp h
  rfl

/-- The accumulation loop, started at `idx` with enough identifiers left,
succeeds; every processed product contributes exactly one entry to the results
or the error list, and the identifiers in the two lists are exactly the
identifiers consumed. -/
theorem processLoop_partition (upcs : List String) (now : String) :
    ∀ (products : List (Option Product)) (idx : ℕ),
      idx + products.length ≤ upcs.length →
      ∃ res errs, processLoop upcs now idx products = .ok (res, errs) ∧
        res.length + errs.length = products.length ∧
        (res.map Assessment.upc ++ errs.map ErrEntry.upc).Perm
          ((upcs.drop idx).take products.length) := by
  intro products
  induction products with
  | nil => intro idx _; exact ⟨[], [], rfl, rfl, by simp⟩
  | cons prod rest ih =>
    intro idx h
    have hidx : idx < upcs.length := by
      simp only [List.length_cons] at h; omega
    obtain ⟨res, errs, hok, hlen, hperm⟩ := ih (idx + 1)
      (by simp only [List.length_cons] at h; omega)
    have hget : upcs[idx]? = some upcs[idx] := List.getElem?_eq_getElem hidx
    have hdt : (upcs.drop idx).take (rest.length + 1) =
        upcs[idx] :: ((upcs.drop (idx + 1)).take rest.length) := by
      rw [List.drop_eq_getElem_cons hidx, List.take_succ_cons]
    cases prod with
    | none =>
      refine ⟨res, ⟨upcs[idx], "Product not found"⟩ :: errs, ?_, ?_, ?_⟩
      · simp only [processLoop, hget, hok]
      · simp only [List.length_cons]; omega
      · simp only [List.length_cons, List.map_cons]
        rw [hdt]
        exact List.perm_middle.trans (hperm.cons _)
    | some p =>
      cases he : evaluate upcs[idx] p now with
      | ok a =>
        refine ⟨a :: res, errs, ?_, ?_, ?_⟩
        · simp only [processLoop, hget, hok, he]
        · simp only [List.length_cons]; omega
        · simp only [List.length_cons, List.map_cons, List.cons_append, evaluate_ok_upc he]
          rw [hdt]
          exact hperm.cons _
      | error e =>
        refine ⟨res, ⟨upcs[idx], e⟩ :: errs, ?_, ?_, ?_⟩
        · simp only [processLoop, hget, hok, he]
        · simp only [List.length_cons]; omega
        · simp only [List.length_cons, List.map_cons]
          rw [hdt]
          exact List.perm_middle.trans (hperm.cons _)

/-- C9: each identifier of a valid batch contributes exactly one entry to the
results list or the error list (entries carry the identifiers), a per-record
failure never aborts the rest, and the summary satisfies total = number of
identifiers, successful = length of results, errors = length of the error
list. -/
theorem C9_batch_accounting (upcs : List String) (products : List (Option Product))
    (now : String) (hne : upcs ≠ []) (hle : upcs.length ≤ 100)
    (hlen : products.length = upcs.length) :
    (handleProcess upcs true products now).status = 200 ∧
    (handleProcess upcs true products now).summaryTotal = upcs.length ∧
    (handleProcess upcs true products now).summarySuccessful =
      (handleProcess upcs true products now).results.length ∧
    (handleProcess upcs true products now).summaryErrors =
      (handleProcess upcs true products now).errors.length ∧
    (handleProcess upcs true products now).results.length +
      (handleProcess upcs true products now).errors.length = upcs.length ∧
    ((handleProcess upcs true products now).results.map Assessment.upc ++
      (handleProcess upcs true products now).errors.map ErrEntry.upc).Perm upcs := by
  obtain ⟨res, errs, hok, hlen2, hperm⟩ :=
    processLoop_partition upcs now products 0 (by omega)
  have hdt : (upcs.drop 0).take products.length = upcs := by
    rw [List.drop_zero, hlen, List.take_length]
  rw [hdt] at hperm
  have hE : upcs.isEmpty = false := by
    cases upcs with
    | nil => exact absurd rfl hne
    | cons a l => rfl
  have hh : handleProcess upcs true products now =
      ⟨200, true, res, errs, upcs.length, res.length, errs.length, none⟩ := by
    unfold handleProcess
    rw [hE, hok, if_neg (by simp), if_neg (by omega : ¬ upcs.length > 100), if_neg (by simp)]
  rw [hh]
  refine ⟨rfl, rfl, rfl, rfl, ?_, hperm⟩
  show res.length + errs.length = upcs.length
  omega

/-- C9 witness. -/
theorem C9_witness :
    (["a", "b"] : List String) ≠ [] ∧
    (["a", "b"] : List String).length ≤ 100 ∧
    ([none, some minimalProduct] : List (Option Product)).length =
      (["a", "b"] : List String).length ∧
    (handleProcess ["a", "b"] true [none, some minimalProduct] "t").status = 200 ∧
    (handleProcess ["a", "b"] true [none, some minimalProduct] "t").results.length +
      (handleProcess ["a", "b"] true [none, some minimalProduct] "t").errors.length = 2 :=
  ⟨by decide, by decide, rfl,
   (C9_batch_accounting ["a", "b"] [none, some minimalProduct] "t"
     (by decide) (by decide) rfl).1,
   (C9_batch_accounting ["a", "b"] [none, some minimalProduct] "t"
     (by decide) (by decide) rfl).2.2.2.2.1⟩

/-- C10: the batch endpoint rejects, with an HTTP 400 response and without
querying the upstream price-history service, any request whose identifier list
is empty or longer than 100. -/
theorem C10_reject_bad_batch (upcs : List String) (key : Bool)
    (products : List (Option Product)) (now : String)
    (h : upcs = [] ∨ 100 < upcs.length) :
    (handleProcess upcs key products now).status = 400 ∧
    (handleProcess upcs key products now).queriedUpstream = false := by
  rcases h with rfl | hgt
  · exact ⟨rfl, rfl⟩
  · cases hE : upcs.isEmpty with
    | true => simp [handleProcess, hE]
    | false => simp [handleProcess, hE, hgt]

/-- C10 witness. -/
theorem C10_witness :
    (([] : List String) = [] ∨ 100 < ([] : List String).length) ∧
    (handleProcess [] true [] "t").status = 400 ∧
    (handleProcess [] true [] "t").queriedUpstream = false :=
  ⟨Or.inl rfl, C10_reject_bad_batch [] true [] "t" (Or.inl rfl)⟩

end AlphaAmazon
